import Mathlib

/-!
Verification development for the GMC-300E Plus radiation-monitor program
(`gmc_monitor.py`).  The Python source is shallowly embedded below:

* the protocol client `GMC300EPlus` becomes pure functions from raw
  response byte lists to `Except GmcError` results;
* the alert evaluator `AlertManager` becomes explicit state passing over
  `AlertStates` (the two mutable dicts `alert_states` / `last_alerts`,
  projected per rule key);
* the polling cycle `read_and_publish` / `reconnect_device` becomes a pure
  function from the cycle's device exchanges to the list of observable
  actions it performs;
* Python floats are modelled as rationals, `time.time()` values as `ℚ`,
  Python `int()` as truncation toward zero, Python `round(x, 3)` as
  round-half-to-even at three decimals.
-/

/-- Error taxonomy of the protocol layer.  Python raises
`ConnectionError` for transport failures and `ValueError` for bad
responses; the spec's taxonomy names are used: wrong byte count is
`responseLengthError`, a bad acknowledge/sentinel byte is `deviceNACK`,
and an out-of-range calendar field (Python's `datetime(...)` constructor
raising `ValueError`) is `invalidDate`. -/
inductive GmcError where
  | transportError
  | responseLengthError
  | deviceNACK
  | invalidDate
deriving DecidableEq, Repr

/-- Decoded device date/time, mirroring the dict returned by
`GMC300EPlus.get_datetime` (without the redundant composite field). -/
structure DeviceTime where
  year : Nat
  month : Nat
  day : Nat
  hour : Nat
  minute : Nat
  second : Nat
deriving DecidableEq, Repr

/-- Gregorian leap-year rule, as used by Python's `datetime`. -/
def isLeapYear (y : Nat) : Bool :=
  y % 4 = 0 && (y % 100 ≠ 0 || y % 400 = 0)

/-- Number of days in month `m` of year `y` (months numbered 1..12). -/
def daysInMonth (y m : Nat) : Nat :=
  if m = 2 then (if isLeapYear y then 29 else 28)
  else if m = 4 ∨ m = 6 ∨ m = 9 ∨ m = 11 then 30
  else 31

/-- Field ranges accepted by Python's `datetime(year, month, day, hour,
minute, second)` constructor. -/
def validDatetimeFields (y m d h mi s : Nat) : Bool :=
  1 ≤ y && y ≤ 9999 && 1 ≤ m && m ≤ 12 && 1 ≤ d && d ≤ daysInMonth y m &&
    h < 24 && mi < 60 && s < 60

/-- `bytes.decode('ascii', errors='ignore')`: keep only bytes < 128. -/
def asciiDecodeIgnore (bs : List Nat) : String :=
  String.mk ((bs.filter (· < 128)).map Char.ofNat)

/-- `GMC300EPlus.get_version`, as a function of the raw response to
`"<GETVER>>"`: expects exactly 14 bytes, else raises (modelled as
`responseLengthError`); decodes ASCII ignoring errors and strips. -/
def get_version (resp : List Nat) : Except GmcError String :=
  if resp.length = 14 then .ok (asciiDecodeIgnore resp).trim
  else .error .responseLengthError

/-- `GMC300EPlus.get_cpm`, as a function of the raw response to
`"<GETCPM>>"`: expects exactly 2 bytes, value `(b0 << 8) | b1`. -/
def get_cpm (resp : List Nat) : Except GmcError Nat :=
  if resp.length = 2 then .ok ((resp.getD 0 0) <<< 8 ||| resp.getD 1 0)
  else .error .responseLengthError

/-- `GMC300EPlus.get_battery_voltage`, as a function of the raw response
to `"<GETVOLT>>"`: expects exactly 1 byte, value `byte / 10.0` volts. -/
def get_battery_voltage (resp : List Nat) : Except GmcError ℚ :=
  if resp.length = 1 then .ok ((resp.getD 0 0 : ℚ) / 10)
  else .error .responseLengthError

/-- Uppercase hexadecimal digit character for `n < 16`. -/
def hexDigit (n : Nat) : Char :=
  if n < 10 then Char.ofNat (48 + n) else Char.ofNat (55 + n)

/-- Python's `f-string` format `{n:02X}` for byte values `n < 256`
(all datetime fields sent by `set_datetime` are < 100). -/
def hex2 (n : Nat) : String :=
  String.mk [hexDigit (n / 16 % 16), hexDigit (n % 16)]

/-- The command string built by `GMC300EPlus.set_datetime`: year is
reduced mod 100 and each of the six fields is formatted as a
two-character uppercase ASCII hexadecimal byte. -/
def setDatetimeCommand (year month day hour minute second : Nat) : String :=
  "<SETDATETIME[" ++ hex2 (year % 100) ++ hex2 month ++ hex2 day ++
    hex2 hour ++ hex2 minute ++ hex2 second ++ "]>>"

/-- The response check of `GMC300EPlus.set_datetime`: succeeds iff the
response is exactly one byte equal to `0xAA`, else raises (modelled as
`deviceNACK`). -/
def set_datetime_result (resp : List Nat) : Except GmcError Unit :=
  if resp.length = 1 ∧ resp.getD 0 0 = 0xAA then .ok ()
  else .error .deviceNACK

/-- `GMC300EPlus.get_datetime`, as a function of the raw response to
`"<GETDATETIME>>"`.  The source checks `len(response) != 7 or
response[6] != 0xAA` (short-circuit: length first, then the `0xAA`
sentinel), reconstructs the year from the two-digit byte (`< 50` means
2000 + yy, else 1900 + yy), and builds a Python `datetime`, whose
constructor rejects out-of-range fields. -/
def get_datetime (resp : List Nat) : Except GmcError DeviceTime :=
  if resp.length ≠ 7 then .error .responseLengthError
  else if resp.getD 6 0 ≠ 0xAA then .error .deviceNACK
  else
    let yy := resp.getD 0 0
    let year := if yy < 50 then 2000 + yy else 1900 + yy
    let mm := resp.getD 1 0
    let dd := resp.getD 2 0
    let hh := resp.getD 3 0
    let mi := resp.getD 4 0
    let ss := resp.getD 5 0
    if validDatetimeFields year mm dd hh mi ss then
      .ok ⟨year, mm, dd, hh, mi, ss⟩
    else .error .invalidDate

/-- Python `int()` applied to a (real-valued) float: truncation toward
zero. -/
def pyInt (q : ℚ) : ℤ :=
  if q < 0 then -⌊-q⌋ else ⌊q⌋

/-- Python `round`'s round-half-to-even on a rational, used to model
`round(x, 3)` below. -/
def pyRound (q : ℚ) : ℤ :=
  let f := ⌊q⌋
  let r := q - f
  if r < 1/2 then f
  else if 1/2 < r then f + 1
  else if f % 2 = 0 then f else f + 1

/-- `round(x, 3)` from the payload assembly in `read_and_publish`. -/
def round3 (q : ℚ) : ℚ := (pyRound (q * 1000) : ℚ) / 1000

/-- `GMCMonitor.calculate_battery_percentage`: clamp to 100 above the
full-calibration voltage, to 0 below the empty-calibration voltage, and
linearly interpolate (through Python `int()` truncation, then a
redundant `max 0 (min 100 _)` clamp) in between. -/
def calculate_battery_percentage (fullVoltage emptyVoltage voltage : ℚ) : ℤ :=
  if voltage ≥ fullVoltage then 100
  else if voltage ≤ emptyVoltage then 0
  else
    max 0 (min 100
      (pyInt ((voltage - emptyVoltage) / (fullVoltage - emptyVoltage) * 100)))

/-- Dose-rate derivation in `read_and_publish`:
`usvh = cpm * cpm_to_usvh_factor`. -/
def doseRate (cpm : Nat) (factor : ℚ) : ℚ := cpm * factor

/-- Per-rule-key slice of `AlertManager`'s two dicts: `alertState` is
the entry of `self.alert_states` (onset time of the currently observed
condition) and `lastAlert` the entry of `self.last_alerts` (time the
rule last fired); `none` means the key is absent from the dict. -/
structure KeyState where
  alertState : Option ℚ
  lastAlert : Option ℚ
deriving DecidableEq, Repr

/-- `AlertManager._should_trigger_alert` for one rule key, with
`time.time()` passed explicitly.  If the key is absent from
`alert_states` it is first inserted with the current time; the alert
fires when the condition has been observed for at least `minDuration`
seconds and the key either never fired or fired more than 3600 s ago,
in which case `last_alerts[key]` is set to the current time. -/
def shouldTriggerAlert (s : KeyState) (currentTime minDuration : ℚ) :
    Bool × KeyState :=
  let onset := s.alertState.getD currentTime
  if currentTime - onset ≥ minDuration then
    match s.lastAlert with
    | none => (true, ⟨some onset, some currentTime⟩)
    | some last =>
        if currentTime - last > 3600 then (true, ⟨some onset, some currentTime⟩)
        else (false, ⟨some onset, some last⟩)
  else (false, ⟨some onset, s.lastAlert⟩)

/-- `AlertManager._clear_alert_state`: removes the key from
`self.alert_states` only; `self.last_alerts` is untouched. -/
def clearAlertState (s : KeyState) : KeyState :=
  ⟨none, s.lastAlert⟩

/-- The `type` field of the alert dicts produced by `check_alerts`. -/
inductive AlertType where
  | high_radiation
  | critical_battery
  | low_battery
deriving DecidableEq, Repr

/-- The alert-relevant configuration (`config['alerts']`), with the
defaults used by the `.get` calls in `check_alerts`.  The high-radiation
threshold is kept as an `Option` because Python tests it for
truthiness: the rule is evaluated only when the key is present and its
value nonzero. -/
structure AlertConfig where
  highThreshold : Option ℚ
  highDurationMinutes : ℚ
  enableBattery : Bool
  criticalThreshold : ℚ
  lowThreshold : ℚ

/-- The complete mutable state of `AlertManager`, projected onto the two
rule keys that `check_alerts` ever uses (`'high_radiation'` and
`'low_battery'`). -/
structure AlertStates where
  highRadiation : KeyState
  lowBattery : KeyState
deriving DecidableEq, Repr

/-- Fresh `AlertManager` state: both dicts empty. -/
def initialAlertStates : AlertStates := ⟨⟨none, none⟩, ⟨none, none⟩⟩

/-- The high-radiation section of `check_alerts`: evaluated only when
the configured threshold is truthy; when `uSv_h > threshold` the
debounced trigger runs with `duration_minutes * 60`, otherwise the
onset state is cleared. -/
def checkHighRadiation (cfg : AlertConfig) (s : KeyState) (u t : ℚ) :
    List AlertType × KeyState :=
  if cfg.highThreshold.getD 0 ≠ 0 then
    if u > cfg.highThreshold.getD 0 then
      let p := shouldTriggerAlert s t (cfg.highDurationMinutes * 60)
      ((if p.1 then [.high_radiation] else []), p.2)
    else ([], clearAlertState s)
  else ([], s)

/-- The battery section of `check_alerts`: when enabled, a voltage below
the critical threshold emits `critical_battery` unconditionally (and
skips the low-battery `elif`); otherwise a voltage below the low
threshold runs the debounced trigger with a fixed 300 s duration.  No
branch clears the low-battery onset state. -/
def checkBattery (cfg : AlertConfig) (s : KeyState) (v t : ℚ) :
    List AlertType × KeyState :=
  if cfg.enableBattery then
    if v < cfg.criticalThreshold then ([.critical_battery], s)
    else if v < cfg.lowThreshold then
      let p := shouldTriggerAlert s t 300
      ((if p.1 then [.low_battery] else []), p.2)
    else ([], s)
  else ([], s)

/-- `AlertManager.check_alerts` on one reading: the high-radiation
section runs first, then the battery section; the emitted alert list is
their concatenation in that order. -/
def checkAlerts (cfg : AlertConfig) (s : AlertStates) (u v t : ℚ) :
    List AlertType × AlertStates :=
  let hp := checkHighRadiation cfg s.highRadiation u t
  let bp := checkBattery cfg s.lowBattery v t
  (hp.1 ++ bp.1, ⟨hp.2, bp.2⟩)

/-- A sequence of `check_alerts` calls, each given as
`(time, uSv_h, battery_voltage)`; returns all emitted alerts tagged with
the call time. -/
def runAlerts (cfg : AlertConfig) :
    AlertStates → List (ℚ × ℚ × ℚ) → List (ℚ × AlertType)
  | _, [] => []
  | s, (t, u, v) :: rest =>
      let p := checkAlerts cfg s u v t
      p.1.map (fun a => (t, a)) ++ runAlerts cfg p.2 rest

/-- The times at which alerts of a given type were emitted. -/
def firesOf (ty : AlertType) (l : List (ℚ × AlertType)) : List ℚ :=
  l.filterMap (fun p => if p.2 = ty then some p.1 else none)

/-- Day count of `DeviceTime.year`'s predecessors: 365 per year plus the
Gregorian leap days, matching Python's proleptic-Gregorian ordinal. -/
def daysBeforeYear (y : Nat) : Nat :=
  365 * (y - 1) + ((y - 1) / 4 - (y - 1) / 100 + (y - 1) / 400)

/-- Days in the months of year `y` strictly before month `m`. -/
def daysBeforeMonth (y m : Nat) : Nat :=
  ((List.range (m - 1)).map (fun i => daysInMonth y (i + 1))).sum

/-- Composite timestamp of a device time, in seconds since 0001-01-01
00:00:00 of the proleptic Gregorian calendar.  Differences of this
value coincide with Python's
`(datetime_a - datetime_b).total_seconds()` for naive datetimes. -/
def toTimestampSec (dt : DeviceTime) : Nat :=
  (daysBeforeYear dt.year + daysBeforeMonth dt.year dt.month + (dt.day - 1))
      * 86400
    + dt.hour * 3600 + dt.minute * 60 + dt.second

/-- The device-related configuration used by the polling cycle
(`config['device']`). -/
structure DeviceConfig where
  checkTimeDrift : Bool
  syncDatetimeOnStart : Bool
  maxTimeDriftSeconds : ℚ
  cpmToUsvhFactor : ℚ

/-- Observable actions of one pass through `read_and_publish` /
`reconnect_device`.  `resyncTime` marks a call to
`self.device.set_datetime()` from the drift check (the attempt, whether
or not the device acknowledges), `logWarning` the drift warning,
`logReading` the CSV append, `publishState` the MQTT state publish. -/
inductive LoopAction where
  | publishAvailability (online : Bool)
  | disconnectDevice
  | sleepSeconds (n : Nat)
  | connectDevice
  | logWarning
  | resyncTime
  | logReading
  | publishState
deriving DecidableEq, Repr

/-- One polling cycle's device exchanges: for each command sent by
`read_and_publish`, either the raw response bytes or a transport
failure, plus the host clock (`datetime.now()` as a timestamp in the
same epoch as `toTimestampSec`, with fractional seconds). -/
structure CycleInput where
  cpmExchange : Except GmcError (List Nat)
  voltExchange : Except GmcError (List Nat)
  datetimeExchange : Except GmcError (List Nat)
  setDtExchange : Except GmcError (List Nat)
  hostTime : ℚ

/-- The body of `reconnect_device`: publish availability "offline",
close and drop the device session, sleep 5 seconds, re-run the device
startup sequence `connect_device`. -/
def reconnectActions : List LoopAction :=
  [.publishAvailability false, .disconnectDevice, .sleepSeconds 5,
   .connectDevice]

/-- The inner drift-check `try` block of `read_and_publish`: reads the
device time, compares the absolute drift against
`max_time_drift_seconds`, logs a warning and — only if
`sync_datetime_on_start` is set — calls `set_datetime`.  Returns the
actions performed before any exception together with the exception (if
one was raised inside the block); the caller swallows the exception. -/
def driftCheckRun (cfg : DeviceConfig) (inp : CycleInput) :
    List LoopAction × Option GmcError :=
  if cfg.checkTimeDrift then
    match Except.bind inp.datetimeExchange get_datetime with
    | .error e => ([], some e)
    | .ok dt =>
        if |inp.hostTime - (toTimestampSec dt : ℚ)| > cfg.maxTimeDriftSeconds
        then
          if cfg.syncDatetimeOnStart then
            match Except.bind inp.setDtExchange set_datetime_result with
            | .ok _ => ([.logWarning, .resyncTime], none)
            | .error e => ([.logWarning, .resyncTime], some e)
          else ([.logWarning], none)
        else ([], none)
  else ([], none)

/-- `GMCMonitor.read_and_publish` as the list of observable actions of
one polling cycle: read CPM, read battery voltage, optionally run the
drift check (whose failures are swallowed after logging), append the
reading to the CSV log and publish the state payload.  Any exception
from the two reads aborts the cycle and runs `reconnect_device`. -/
def read_and_publish (cfg : DeviceConfig) (inp : CycleInput) :
    List LoopAction :=
  match Except.bind inp.cpmExchange get_cpm with
  | .error _ => reconnectActions
  | .ok _cpm =>
      match Except.bind inp.voltExchange get_battery_voltage with
      | .error _ => reconnectActions
      | .ok _v =>
          (driftCheckRun cfg inp).1 ++ [.logReading, .publishState]

/-- The polling loop of `GMCMonitor.run`, indexed by the finite sequence
of cycles it executes: every cycle runs `read_and_publish`, whether or
not earlier cycles failed; no cycle outcome stops the loop. -/
def monitorLoop (cfg : DeviceConfig) : List CycleInput → List LoopAction
  | [] => []
  | inp :: rest => read_and_publish cfg inp ++ monitorLoop cfg rest

/-- C7: For every read operation (`GetVersion`, `GetCPM`,
`GetBatteryVoltage`, `GetDateTime`), a response whose byte count differs
from the respective expected length (14, 2, 1, 7) makes the operation
fail with a `responseLengthError` result instead of returning a decoded
value or crashing the caller. -/
theorem C7_wrong_length_fails (resp : List Nat) :
    (resp.length ≠ 14 → get_version resp = .error .responseLengthError) ∧
    (resp.length ≠ 2 → get_cpm resp = .error .responseLengthError) ∧
    (resp.length ≠ 1 →
      get_battery_voltage resp = .error .responseLengthError) ∧
    (resp.length ≠ 7 → get_datetime resp = .error .responseLengthError) := by
  refine ⟨fun h => ?_, fun h => ?_, fun h => ?_, fun h => ?_⟩ <;>
    simp [get_version, get_cpm, get_battery_voltage, get_datetime, h]

/-- Witness for C7 at the concrete empty response. -/
theorem C7_wrong_length_fails_witness :
    ([] : List Nat).length ≠ 14 ∧
    get_version [] = .error .responseLengthError ∧
    get_cpm [] = .error .responseLengthError ∧
    get_battery_voltage [] = .error .responseLengthError ∧
    get_datetime [] = .error .responseLengthError := by
  have h := C7_wrong_length_fails []
  exact ⟨by decide, h.1 (by decide), h.2.1 (by decide), h.2.2.1 (by decide),
    h.2.2.2 (by decide)⟩

/-- C6: `set_datetime` encodes year mod 100, month, day, hour, minute
and second as two-character ASCII hexadecimal bytes concatenated into
the literal command frame; for 2024-03-05 14:30:00 the twelve hex
characters are `1803050E1E00`; and for a single-byte response the
operation succeeds iff the byte equals `0xAA`, failing with
`deviceNACK` otherwise. -/
theorem C6_set_datetime_encoding :
    setDatetimeCommand 2024 3 5 14 30 0 = "<SETDATETIME[1803050E1E00]>>" ∧
    ∀ b : Nat, (set_datetime_result [b] = .ok () ↔ b = 0xAA) ∧
      (b ≠ 0xAA → set_datetime_result [b] = .error .deviceNACK) := by
  refine ⟨by decide, fun b => ⟨⟨fun h => ?_, fun h => ?_⟩, fun h => ?_⟩⟩
  · by_contra hb
    simp [set_datetime_result, hb] at h
  · simp [set_datetime_result, h]
  · simp [set_datetime_result, h]

/-- Witness for C6 at the concrete non-acknowledge byte `0x55`. -/
theorem C6_set_datetime_encoding_witness :
    (0x55 : Nat) ≠ 0xAA ∧
    set_datetime_result [0x55] = .error .deviceNACK :=
  ⟨by decide, (C6_set_datetime_encoding.2 0x55).2 (by decide)⟩

/-- C10: `get_datetime` reconstructs the four-digit year from the
two-digit year byte `yy` as `2000 + yy` when `yy < 50` and `1900 + yy`
otherwise; in particular byte 49 yields year 2049 and byte 50 yields
year 1950. -/
theorem C10_year_reconstruction :
    (∀ (resp : List Nat) (r : DeviceTime), get_datetime resp = .ok r →
        r.year = if resp.getD 0 0 < 50 then 2000 + resp.getD 0 0
                 else 1900 + resp.getD 0 0) ∧
    get_datetime [49, 6, 15, 12, 0, 0, 0xAA] = .ok ⟨2049, 6, 15, 12, 0, 0⟩ ∧
    get_datetime [50, 6, 15, 12, 0, 0, 0xAA] = .ok ⟨1950, 6, 15, 12, 0, 0⟩ := by
  refine ⟨fun resp r h => ?_, rfl, rfl⟩
  unfold get_datetime at h
  split at h
  · cases h
  · split at h
    · cases h
    · dsimp only at h
      split at h
      · rename_i hlt
        split at h
        · cases h
          exact (if_pos hlt).symm
        · cases h
      · rename_i hlt
        split at h
        · cases h
          exact (if_neg hlt).symm
        · cases h

/-- Witness for C10 at the concrete response byte 49. -/
theorem C10_year_reconstruction_witness :
    get_datetime [49, 6, 15, 12, 0, 0, 0xAA] = .ok ⟨2049, 6, 15, 12, 0, 0⟩ ∧
    (⟨2049, 6, 15, 12, 0, 0⟩ : DeviceTime).year =
      if ([49, 6, 15, 12, 0, 0, 0xAA] : List Nat).getD 0 0 < 50
      then 2000 + ([49, 6, 15, 12, 0, 0, 0xAA] : List Nat).getD 0 0
      else 1900 + ([49, 6, 15, 12, 0, 0, 0xAA] : List Nat).getD 0 0 := by
  have h := C10_year_reconstruction
  exact ⟨h.2.1, h.1 [49, 6, 15, 12, 0, 0, 0xAA] ⟨2049, 6, 15, 12, 0, 0⟩ h.2.1⟩

/-- For nonnegative arguments Python truncation agrees with floor. -/
theorem pyInt_eq_floor_of_nonneg {q : ℚ} (h : 0 ≤ q) : pyInt q = ⌊q⌋ := by
  unfold pyInt
  rw [if_neg (not_lt.mpr h)]

/-- Python truncation is monotone on nonnegative arguments. -/
theorem pyInt_mono {a b : ℚ} (ha : 0 ≤ a) (hab : a ≤ b) :
    pyInt a ≤ pyInt b := by
  rw [pyInt_eq_floor_of_nonneg ha, pyInt_eq_floor_of_nonneg (ha.trans hab)]
  exact Int.floor_le_floor hab

/-- The battery percentage is never negative. -/
theorem calculate_battery_percentage_nonneg (f e v : ℚ) :
    0 ≤ calculate_battery_percentage f e v := by
  unfold calculate_battery_percentage
  split_ifs
  · norm_num
  · exact le_refl 0
  · exact le_max_left 0 _

/-- The battery percentage never exceeds 100. -/
theorem calculate_battery_percentage_le_hundred (f e v : ℚ) :
    calculate_battery_percentage f e v ≤ 100 := by
  unfold calculate_battery_percentage
  split_ifs
  · exact le_refl 100
  · norm_num
  · exact max_le (by norm_num) (min_le_left _ _)

/-- Branch lemma: at or above the full voltage the result is 100. -/
theorem calculate_battery_percentage_of_ge {f e v : ℚ} (hv : v ≥ f) :
    calculate_battery_percentage f e v = 100 := by
  unfold calculate_battery_percentage
  rw [if_pos hv]

/-- Branch lemma: at or below the empty voltage (and not in the full
branch) the result is 0. -/
theorem calculate_battery_percentage_of_le {f e v : ℚ} (h1 : ¬ v ≥ f)
    (hv : v ≤ e) : calculate_battery_percentage f e v = 0 := by
  unfold calculate_battery_percentage
  rw [if_neg h1, if_pos hv]

/-- Branch lemma: strictly between the calibration points the result is
the clamped truncated interpolation. -/
theorem calculate_battery_percentage_middle {f e v : ℚ} (h1 : ¬ v ≥ f)
    (h2 : ¬ v ≤ e) :
    calculate_battery_percentage f e v =
      max 0 (min 100 (pyInt ((v - e) / (f - e) * 100))) := by
  unfold calculate_battery_percentage
  rw [if_neg h1, if_neg h2]

/-- The battery percentage is monotone in the voltage when the
calibration points are ordered. -/
theorem calculate_battery_percentage_mono {f e : ℚ} (hef : e < f)
    {v w : ℚ} (hvw : v ≤ w) :
    calculate_battery_percentage f e v ≤
      calculate_battery_percentage f e w := by
  rcases le_or_lt f w with hwf | hwf
  · rw [calculate_battery_percentage_of_ge hwf]
    exact calculate_battery_percentage_le_hundred f e v
  · rcases le_or_lt v e with hve | hve
    · rw [calculate_battery_percentage_of_le (not_le.mpr
        (lt_of_le_of_lt hve hef)) hve]
      exact calculate_battery_percentage_nonneg f e w
    · have hvf : ¬ v ≥ f := not_le.mpr (lt_of_le_of_lt hvw hwf)
      rcases le_or_lt w e with hwe | hwe
      · exact absurd (hvw.trans hwe) (not_le.mpr hve)
      · rw [calculate_battery_percentage_middle hvf (not_le.mpr hve),
          calculate_battery_percentage_middle (not_le.mpr hwf)
            (not_le.mpr hwe)]
        have hfe : (0 : ℚ) < f - e := by linarith
        have ha : 0 ≤ (v - e) / (f - e) * 100 :=
          mul_nonneg (div_nonneg (by linarith) (le_of_lt hfe)) (by norm_num)
        have hab : (v - e) / (f - e) * 100 ≤ (w - e) / (f - e) * 100 := by
          have hd : (v - e) / (f - e) ≤ (w - e) / (f - e) :=
            (div_le_div_iff_of_pos_right hfe).mpr (by linarith)
          nlinarith
        exact max_le_max le_rfl (min_le_min le_rfl (pyInt_mono ha hab))

/-- C5: with `empty < full` calibration, `batteryPercent` lies in
[0, 100], is monotonically non-decreasing in the voltage, is 0 for
every voltage at or below the empty point and 100 for every voltage at
or above the full point. -/
theorem C5_battery_percent_props (emptyVoltage fullVoltage : ℚ)
    (h : emptyVoltage < fullVoltage) :
    (∀ v, 0 ≤ calculate_battery_percentage fullVoltage emptyVoltage v ∧
        calculate_battery_percentage fullVoltage emptyVoltage v ≤ 100) ∧
    (∀ v w, v ≤ w →
        calculate_battery_percentage fullVoltage emptyVoltage v ≤
          calculate_battery_percentage fullVoltage emptyVoltage w) ∧
    (∀ v, v ≤ emptyVoltage →
        calculate_battery_percentage fullVoltage emptyVoltage v = 0) ∧
    (∀ v, fullVoltage ≤ v →
        calculate_battery_percentage fullVoltage emptyVoltage v = 100) := by
  refine ⟨fun v => ⟨calculate_battery_percentage_nonneg _ _ _,
      calculate_battery_percentage_le_hundred _ _ _⟩,
    fun v w hvw => calculate_battery_percentage_mono h hvw,
    fun v hv => calculate_battery_percentage_of_le
      (not_le.mpr (lt_of_le_of_lt hv h)) hv,
    fun v hv => calculate_battery_percentage_of_ge hv⟩

/-- Witness for C5 at the concrete calibration 6.0 / 8.4 V. -/
theorem C5_battery_percent_props_witness :
    (6 : ℚ) < 42/5 ∧
    calculate_battery_percentage (42/5) 6 5 = 0 ∧
    calculate_battery_percentage (42/5) 6 9 = 100 := by
  have h := C5_battery_percent_props 6 (42/5) (by norm_num)
  exact ⟨by norm_num, h.2.2.1 5 (by norm_num), h.2.2.2 9 (by norm_num)⟩

/-- C2 counterexample: at 7.0 V with empty 6.0 V and full 8.4 V the code
computes `int((7.0-6.0)/(8.4-6.0)*100) = int(41.66…) = 41`, not the 42
stated by the claim. -/
theorem C2_battery_percent_counterexample :
    calculate_battery_percentage (42/5) 6 7 = 41 ∧
    calculate_battery_percentage (42/5) 6 7 ≠ 42 := by
  constructor <;> (unfold calculate_battery_percentage pyInt; norm_num)

/-- C2 as amended: cpm 120 with conversion factor 0.0057 gives a dose
rate that rounds (at three decimals) to 0.684 µSv/h, and 7.0 V with
calibration empty 6.0 V / full 8.4 V gives batteryPercent 41. -/
theorem C2_end_to_end_amended :
    round3 (doseRate 120 (57/10000)) = 684/1000 ∧
    calculate_battery_percentage (42/5) 6 7 = 41 := by
  constructor
  · unfold round3 doseRate pyRound
    norm_num
  · unfold calculate_battery_percentage pyInt
    norm_num

/-- Characterization of a firing `_should_trigger_alert` call: the
condition must have been observed for at least the minimum duration
(from the recorded or just-inserted onset) and any recorded last firing
must lie more than 3600 s in the past. -/
theorem shouldTriggerAlert_fst_true_iff (s : KeyState) (t d : ℚ) :
    (shouldTriggerAlert s t d).1 = true ↔
      (t - s.alertState.getD t ≥ d ∧
        ∀ lf, s.lastAlert = some lf → t - lf > 3600) := by
  rcases hl : s.lastAlert with _ | lf <;>
    simp only [shouldTriggerAlert, hl] <;> split_ifs <;> simp_all

/-- A firing `_should_trigger_alert` call records the firing time in
`last_alerts`. -/
theorem shouldTriggerAlert_snd_lastAlert_of_true {s : KeyState} {t d : ℚ}
    (h : (shouldTriggerAlert s t d).1 = true) :
    (shouldTriggerAlert s t d).2.lastAlert = some t := by
  rcases hl : s.lastAlert with _ | lf <;>
    simp only [shouldTriggerAlert, hl] at h ⊢ <;>
    split_ifs at h ⊢ <;> simp_all

/-- A non-firing `_should_trigger_alert` call leaves `last_alerts`
unchanged. -/
theorem shouldTriggerAlert_snd_lastAlert_of_false {s : KeyState} {t d : ℚ}
    (h : (shouldTriggerAlert s t d).1 = false) :
    (shouldTriggerAlert s t d).2.lastAlert = s.lastAlert := by
  rcases hl : s.lastAlert with _ | lf <;>
    simp only [shouldTriggerAlert, hl] at h ⊢ <;>
    split_ifs at h ⊢ <;> simp_all

/-- The high-radiation section emits either nothing or exactly one
`high_radiation` alert. -/
theorem checkHighRadiation_fst_sub (cfg : AlertConfig) (s : KeyState)
    (u t : ℚ) :
    (checkHighRadiation cfg s u t).1 = [] ∨
    (checkHighRadiation cfg s u t).1 = [AlertType.high_radiation] := by
  unfold checkHighRadiation
  dsimp only
  split_ifs <;> simp

/-- When the high-radiation section fires, the firing time is recorded
and any previously recorded firing lies more than 3600 s in the past. -/
theorem checkHighRadiation_fired {cfg : AlertConfig} {s : KeyState}
    {u t : ℚ} (h : (checkHighRadiation cfg s u t).1 ≠ []) :
    (checkHighRadiation cfg s u t).2.lastAlert = some t ∧
    ∀ lf, s.lastAlert = some lf → t - lf > 3600 := by
  unfold checkHighRadiation at h ⊢
  dsimp only at h ⊢
  split_ifs at h ⊢ with h1 h2 h3
  · exact ⟨shouldTriggerAlert_snd_lastAlert_of_true h3,
      fun lf hlf => ((shouldTriggerAlert_fst_true_iff s t
        (cfg.highDurationMinutes * 60)).mp h3).2 lf hlf⟩
  · simp at h
  · simp at h
  · simp at h

/-- When the high-radiation section does not fire, `last_alerts` is left
unchanged (in particular a false condition clears only the onset). -/
theorem checkHighRadiation_notfired {cfg : AlertConfig} {s : KeyState}
    {u t : ℚ} (h : (checkHighRadiation cfg s u t).1 = []) :
    (checkHighRadiation cfg s u t).2.lastAlert = s.lastAlert := by
  unfold checkHighRadiation at h ⊢
  dsimp only at h ⊢
  split_ifs at h ⊢ with h1 h2 h3
  · simp only [Bool.not_eq_true] at h3
    exact shouldTriggerAlert_snd_lastAlert_of_false h3
  · rfl
  · rfl

/-- The battery section emits nothing, exactly one `critical_battery`
alert, or exactly one `low_battery` alert. -/
theorem checkBattery_fst_sub (cfg : AlertConfig) (s : KeyState)
    (v t : ℚ) :
    (checkBattery cfg s v t).1 = [] ∨
    (checkBattery cfg s v t).1 = [AlertType.critical_battery] ∨
    (checkBattery cfg s v t).1 = [AlertType.low_battery] := by
  unfold checkBattery
  dsimp only
  split_ifs <;> simp

/-- With battery alerts enabled, a voltage below the critical threshold
emits exactly the `critical_battery` alert and leaves the low-battery
state untouched. -/
theorem checkBattery_critical (cfg : AlertConfig) (s : KeyState)
    (v t : ℚ) (hen : cfg.enableBattery = true)
    (hv : v < cfg.criticalThreshold) :
    (checkBattery cfg s v t).1 = [AlertType.critical_battery] ∧
    (checkBattery cfg s v t).2 = s := by
  unfold checkBattery
  rw [if_pos hen, if_pos hv]
  exact ⟨rfl, rfl⟩

/-- When the battery section emits a `low_battery` alert, battery alerts
are enabled, the voltage is in the low (but not critical) band, the
sustain duration of 300 s has elapsed since the recorded onset, any
recorded last firing lies more than 3600 s in the past, and the firing
time is recorded. -/
theorem checkBattery_low_fired {cfg : AlertConfig} {s : KeyState}
    {v t : ℚ} (h : AlertType.low_battery ∈ (checkBattery cfg s v t).1) :
    cfg.enableBattery = true ∧
    cfg.criticalThreshold ≤ v ∧ v < cfg.lowThreshold ∧
    t - s.alertState.getD t ≥ 300 ∧
    (∀ lf, s.lastAlert = some lf → t - lf > 3600) ∧
    (checkBattery cfg s v t).2.lastAlert = some t := by
  unfold checkBattery at h ⊢
  dsimp only at h ⊢
  split_ifs at h ⊢ with h1 h2 h3 h4
  · simp at h
  · have hc := (shouldTriggerAlert_fst_true_iff s t 300).mp h4
    exact ⟨h1, not_lt.mp h2, h3, hc.1, hc.2,
      shouldTriggerAlert_snd_lastAlert_of_true h4⟩
  · simp at h
  · simp at h
  · simp at h

/-- When the battery section does not emit a `low_battery` alert, the
low-battery `last_alerts` entry is unchanged. -/
theorem checkBattery_low_notfired {cfg : AlertConfig} {s : KeyState}
    {v t : ℚ} (h : AlertType.low_battery ∉ (checkBattery cfg s v t).1) :
    (checkBattery cfg s v t).2.lastAlert = s.lastAlert := by
  unfold checkBattery at h ⊢
  dsimp only at h ⊢
  split_ifs at h ⊢ with h1 h2 h3 h4
  · rfl
  · simp at h
  · simp only [Bool.not_eq_true] at h4
    exact shouldTriggerAlert_snd_lastAlert_of_false h4
  · rfl
  · rfl

/-- The high-radiation section never emits battery alerts. -/
theorem checkHighRadiation_no_battery (cfg : AlertConfig) (s : KeyState)
    (u t : ℚ) :
    AlertType.critical_battery ∉ (checkHighRadiation cfg s u t).1 ∧
    AlertType.low_battery ∉ (checkHighRadiation cfg s u t).1 := by
  rcases checkHighRadiation_fst_sub cfg s u t with h | h <;> rw [h] <;>
    simp

/-- The battery section never emits a high-radiation alert. -/
theorem checkBattery_no_high (cfg : AlertConfig) (s : KeyState)
    (v t : ℚ) :
    AlertType.high_radiation ∉ (checkBattery cfg s v t).1 := by
  rcases checkBattery_fst_sub cfg s v t with h | h | h <;> rw [h] <;> simp

/-- Projection: the alert list of `check_alerts` is the high-radiation
section's list followed by the battery section's list. -/
theorem checkAlerts_fst (cfg : AlertConfig) (s : AlertStates)
    (u v t : ℚ) :
    (checkAlerts cfg s u v t).1 =
      (checkHighRadiation cfg s.highRadiation u t).1 ++
        (checkBattery cfg s.lowBattery v t).1 := rfl

/-- Projection: the new high-radiation key state of `check_alerts`. -/
theorem checkAlerts_snd_high (cfg : AlertConfig) (s : AlertStates)
    (u v t : ℚ) :
    (checkAlerts cfg s u v t).2.highRadiation =
      (checkHighRadiation cfg s.highRadiation u t).2 := rfl

/-- Projection: the new low-battery key state of `check_alerts`. -/
theorem checkAlerts_snd_low (cfg : AlertConfig) (s : AlertStates)
    (u v t : ℚ) :
    (checkAlerts cfg s u v t).2.lowBattery =
      (checkBattery cfg s.lowBattery v t).2 := rfl

/-- C4: with battery alerts enabled, a voltage below the critical
threshold emits `critical_battery` on that very call — regardless of
any evaluator state, i.e. with no sustain and no re-notify gating — and
never `low_battery` on the same call; and a `low_battery` alert can
only be emitted when the voltage is in `[critical, low)` and the 300 s
sustain has elapsed and any previous firing lies more than 3600 s in
the past. -/
theorem C4_battery_alert_rules (cfg : AlertConfig) (s : AlertStates)
    (u v t : ℚ) (hen : cfg.enableBattery = true) :
    (v < cfg.criticalThreshold →
        AlertType.critical_battery ∈ (checkAlerts cfg s u v t).1 ∧
        AlertType.low_battery ∉ (checkAlerts cfg s u v t).1) ∧
    (AlertType.low_battery ∈ (checkAlerts cfg s u v t).1 →
        cfg.criticalThreshold ≤ v ∧ v < cfg.lowThreshold ∧
        t - s.lowBattery.alertState.getD t ≥ 300 ∧
        ∀ lf, s.lowBattery.lastAlert = some lf → t - lf > 3600) := by
  constructor
  · intro hv
    have hc := (checkBattery_critical cfg s.lowBattery v t hen hv).1
    rw [checkAlerts_fst]
    constructor
    · rw [hc]
      simp
    · intro hmem
      rcases List.mem_append.mp hmem with hm | hm
      · exact (checkHighRadiation_no_battery cfg s.highRadiation u t).2 hm
      · rw [hc] at hm
        simp at hm
  · intro hmem
    rw [checkAlerts_fst] at hmem
    rcases List.mem_append.mp hmem with hm | hm
    · exact absurd hm
        (checkHighRadiation_no_battery cfg s.highRadiation u t).2
    · have hf := checkBattery_low_fired hm
      exact ⟨hf.2.1, hf.2.2.1, hf.2.2.2.1, hf.2.2.2.2.1⟩

/-- Witness for C4 at a concrete critical-battery reading. -/
theorem C4_battery_alert_rules_witness :
    AlertType.critical_battery ∈
      (checkAlerts ⟨none, 0, true, 11/2, 6⟩ initialAlertStates 0 5 0).1 ∧
    AlertType.low_battery ∉
      (checkAlerts ⟨none, 0, true, 11/2, 6⟩ initialAlertStates 0 5 0).1 :=
  (C4_battery_alert_rules ⟨none, 0, true, 11/2, 6⟩ initialAlertStates
    0 5 0 rfl).1 (by norm_num)

/-- C1 counterexample: a false HighRadiation condition clears only the
onset entry — the re-notify memory in `last_alerts` survives
(`clearAlertState` keeps it), so on the concrete flapping trace
true(fires at t=0) → false(t=10) → true(t=20) the rule does NOT re-fire
at t=20, contrary to the claim that the reset discards the re-notify
memory and lets a flapping condition re-fire sooner. -/
theorem C1_flapping_counterexample :
    (clearAlertState ⟨some 0, some 0⟩).lastAlert = some 0 ∧
    runAlerts ⟨some 1, 0, false, 11/2, 6⟩ initialAlertStates
        [(0, 2, 7), (10, 0, 7), (20, 2, 7)] =
      [(0, AlertType.high_radiation)] := by
  constructor
  · rfl
  · simp only [runAlerts, checkAlerts, checkHighRadiation, checkBattery,
      shouldTriggerAlert, clearAlertState, initialAlertStates]
    norm_num

/-- C1 as amended: when the HighRadiation condition is observed false,
the per-rule state is reset to Inactive by discarding the onset time,
but the re-notify memory in `last_alerts` is retained, so a condition
that goes false and then true again is still gated by the 3600 s
re-notify interval. -/
theorem C1_condition_false_keeps_renotify (cfg : AlertConfig)
    (s : AlertStates) (u v t : ℚ)
    (htruthy : cfg.highThreshold.getD 0 ≠ 0)
    (hfalse : ¬ u > cfg.highThreshold.getD 0) :
    (checkAlerts cfg s u v t).2.highRadiation =
      ⟨none, s.highRadiation.lastAlert⟩ ∧
    AlertType.high_radiation ∉ (checkAlerts cfg s u v t).1 ∧
    ∀ lf u2 v2 t2, s.highRadiation.lastAlert = some lf → t2 - lf ≤ 3600 →
      AlertType.high_radiation ∉
        (checkAlerts cfg (checkAlerts cfg s u v t).2 u2 v2 t2).1 := by
  have hstate : (checkHighRadiation cfg s.highRadiation u t).2 =
      ⟨none, s.highRadiation.lastAlert⟩ := by
    unfold checkHighRadiation
    rw [if_pos htruthy, if_neg hfalse]
    rfl
  have hempty : (checkHighRadiation cfg s.highRadiation u t).1 = [] := by
    unfold checkHighRadiation
    rw [if_pos htruthy, if_neg hfalse]
  refine ⟨by rw [checkAlerts_snd_high, hstate], ?_, ?_⟩
  · rw [checkAlerts_fst]
    intro hmem
    rcases List.mem_append.mp hmem with hm | hm
    · rw [hempty] at hm
      simp at hm
    · exact checkBattery_no_high cfg s.lowBattery v t hm
  · intro lf u2 v2 t2 hlf hle hmem
    rw [checkAlerts_fst] at hmem
    rcases List.mem_append.mp hmem with hm | hm
    · have hkey : (checkAlerts cfg s u v t).2.highRadiation.lastAlert =
          some lf := by
        rw [checkAlerts_snd_high, hstate, hlf]
      rcases checkHighRadiation_fst_sub cfg
          (checkAlerts cfg s u v t).2.highRadiation u2 t2 with he | he
      · rw [he] at hm
        simp at hm
      · have := (checkHighRadiation_fired (by rw [he]; simp)).2 lf hkey
        linarith
    · exact checkBattery_no_high cfg _ v2 t2 hm

/-- Witness for C1's amended statement at a concrete state. -/
theorem C1_condition_false_keeps_renotify_witness :
    (checkAlerts ⟨some 1, 0, false, 11/2, 6⟩
        ⟨⟨some 0, some 0⟩, ⟨none, none⟩⟩ 0 7 10).2.highRadiation =
      ⟨none, some 0⟩ ∧
    AlertType.high_radiation ∉
      (checkAlerts ⟨some 1, 0, false, 11/2, 6⟩
        ⟨⟨some 0, some 0⟩, ⟨none, none⟩⟩ 0 7 10).1 := by
  have h := C1_condition_false_keeps_renotify ⟨some 1, 0, false, 11/2, 6⟩
    ⟨⟨some 0, some 0⟩, ⟨none, none⟩⟩ 0 7 10 (by norm_num) (by norm_num)
  exact ⟨h.1, h.2.1⟩

/-- `firesOf` distributes over list concatenation. -/
theorem firesOf_append (ty : AlertType) (a b : List (ℚ × AlertType)) :
    firesOf ty (a ++ b) = firesOf ty a ++ firesOf ty b :=
  List.filterMap_append a b _

/-- One step of `runAlerts`. -/
theorem runAlerts_cons (cfg : AlertConfig) (s : AlertStates)
    (t u v : ℚ) (rest : List (ℚ × ℚ × ℚ)) :
    runAlerts cfg s ((t, u, v) :: rest) =
      (checkAlerts cfg s u v t).1.map (fun a => (t, a)) ++
        runAlerts cfg (checkAlerts cfg s u v t).2 rest := rfl

/-- The battery section never contributes high-radiation fire times. -/
theorem firesOf_high_battery (cfg : AlertConfig) (s : KeyState)
    (v t t' : ℚ) :
    firesOf .high_radiation
      ((checkBattery cfg s v t).1.map (fun a => (t', a))) = [] := by
  rcases checkBattery_fst_sub cfg s v t with h | h | h <;> rw [h] <;>
    simp [firesOf]

/-- The high-radiation section never contributes low-battery fire
times. -/
theorem firesOf_low_high (cfg : AlertConfig) (s : KeyState)
    (u t t' : ℚ) :
    firesOf .low_battery
      ((checkHighRadiation cfg s u t).1.map (fun a => (t', a))) = [] := by
  rcases checkHighRadiation_fst_sub cfg s u t with h | h <;> rw [h] <;>
    simp [firesOf]

/-- Once a high-radiation firing time is recorded in `last_alerts`,
every later high-radiation fire in the run lies more than 3600 s after
it — the record is never deleted, only overwritten at later fires. -/
theorem runAlerts_high_gap (cfg : AlertConfig) :
    ∀ (calls : List (ℚ × ℚ × ℚ)) (s : AlertStates) (lf : ℚ),
      s.highRadiation.lastAlert = some lf →
      ∀ x ∈ firesOf .high_radiation (runAlerts cfg s calls),
        x - lf > 3600 := by
  intro calls
  induction calls with
  | nil =>
      intro s lf hlf x hx
      simp [runAlerts, firesOf] at hx
  | cons c rest ih =>
      obtain ⟨t, u, v⟩ := c
      intro s lf hlf x hx
      rw [runAlerts_cons, checkAlerts_fst, List.map_append,
        firesOf_append, firesOf_append, firesOf_high_battery] at hx
      rcases checkHighRadiation_fst_sub cfg s.highRadiation u t with h | h
      · rw [h] at hx
        simp only [List.map_nil, List.append_nil, List.nil_append] at hx
        have hlf' : (checkAlerts cfg s u v t).2.highRadiation.lastAlert =
            some lf := by
          rw [checkAlerts_snd_high, checkHighRadiation_notfired h, hlf]
        have hx' : x ∈ firesOf .high_radiation
            (runAlerts cfg (checkAlerts cfg s u v t).2 rest) := by
          simpa [firesOf] using hx
        exact ih (checkAlerts cfg s u v t).2 lf hlf' x hx'
      · have hf := @checkHighRadiation_fired cfg s.highRadiation u t
          (by rw [h]; simp)
        rw [h] at hx
        simp only [List.map_cons, List.map_nil, List.nil_append,
          List.append_nil] at hx
        have hgap := hf.2 lf hlf
        have hsingle : firesOf AlertType.high_radiation
            [(t, AlertType.high_radiation)] = [t] := by
          simp [firesOf]
        rw [hsingle, List.singleton_append] at hx
        rcases List.mem_cons.mp hx with rfl | hm
        · exact hgap
        · have hlf' : (checkAlerts cfg s u v t).2.highRadiation.lastAlert =
              some t := by
            rw [checkAlerts_snd_high]
            exact hf.1
          have := ih (checkAlerts cfg s u v t).2 t hlf' x hm
          linarith

/-- High-radiation fire times are separated by more than 3600 s,
starting from any state. -/
theorem runAlerts_high_pairwise (cfg : AlertConfig) :
    ∀ (calls : List (ℚ × ℚ × ℚ)) (s : AlertStates),
      (firesOf .high_radiation (runAlerts cfg s calls)).Pairwise
        (fun a b => b - a > 3600) := by
  intro calls
  induction calls with
  | nil =>
      intro s
      simp [runAlerts, firesOf]
  | cons c rest ih =>
      obtain ⟨t, u, v⟩ := c
      intro s
      rw [runAlerts_cons, checkAlerts_fst, List.map_append,
        firesOf_append, firesOf_append, firesOf_high_battery]
      rcases checkHighRadiation_fst_sub cfg s.highRadiation u t with h | h
      · rw [h]
        simpa [firesOf] using ih (checkAlerts cfg s u v t).2
      · rw [h]
        have hf := @checkHighRadiation_fired cfg s.highRadiation u t
          (by rw [h]; simp)
        have hlf' : (checkAlerts cfg s u v t).2.highRadiation.lastAlert =
            some t := by
          rw [checkAlerts_snd_high]
          exact hf.1
        have hsingle : firesOf .high_radiation
            ([(t, AlertType.high_radiation)]) = [t] := by
          simp [firesOf]
        simp only [List.map_cons, List.map_nil, List.nil_append,
          List.append_nil, hsingle]
        rw [List.singleton_append]
        refine List.Pairwise.cons ?_ (ih (checkAlerts cfg s u v t).2)
        intro b hb
        exact runAlerts_high_gap cfg rest (checkAlerts cfg s u v t).2 t
          hlf' b hb

/-- Once a low-battery firing time is recorded in `last_alerts`, every
later low-battery fire in the run lies more than 3600 s after it. -/
theorem runAlerts_low_gap (cfg : AlertConfig) :
    ∀ (calls : List (ℚ × ℚ × ℚ)) (s : AlertStates) (lf : ℚ),
      s.lowBattery.lastAlert = some lf →
      ∀ x ∈ firesOf .low_battery (runAlerts cfg s calls),
        x - lf > 3600 := by
  intro calls
  induction calls with
  | nil =>
      intro s lf hlf x hx
      simp [runAlerts, firesOf] at hx
  | cons c rest ih =>
      obtain ⟨t, u, v⟩ := c
      intro s lf hlf x hx
      rw [runAlerts_cons, checkAlerts_fst, List.map_append,
        firesOf_append, firesOf_append, firesOf_low_high,
        List.nil_append] at hx
      rcases checkBattery_fst_sub cfg s.lowBattery v t with h | h | h
      · rw [h] at hx
        simp only [List.map_nil] at hx
        have hlf' : (checkAlerts cfg s u v t).2.lowBattery.lastAlert =
            some lf := by
          rw [checkAlerts_snd_low,
            checkBattery_low_notfired (by rw [h]; simp), hlf]
        have hx' : x ∈ firesOf .low_battery
            (runAlerts cfg (checkAlerts cfg s u v t).2 rest) := by
          simpa [firesOf] using hx
        exact ih (checkAlerts cfg s u v t).2 lf hlf' x hx'
      · rw [h] at hx
        simp only [List.map_cons, List.map_nil] at hx
        have hcrit : firesOf AlertType.low_battery
            [(t, AlertType.critical_battery)] = [] := by
          simp [firesOf]
        rw [hcrit, List.nil_append] at hx
        have hlf' : (checkAlerts cfg s u v t).2.lowBattery.lastAlert =
            some lf := by
          rw [checkAlerts_snd_low,
            checkBattery_low_notfired (by rw [h]; simp), hlf]
        exact ih (checkAlerts cfg s u v t).2 lf hlf' x hx
      · have hf := @checkBattery_low_fired cfg s.lowBattery v t
          (by rw [h]; simp)
        rw [h] at hx
        simp only [List.map_cons, List.map_nil] at hx
        have hgap := hf.2.2.2.2.1 lf hlf
        have hsingle : firesOf AlertType.low_battery
            [(t, AlertType.low_battery)] = [t] := by
          simp [firesOf]
        rw [hsingle, List.singleton_append] at hx
        rcases List.mem_cons.mp hx with rfl | hm
        · exact hgap
        · have hlf' : (checkAlerts cfg s u v t).2.lowBattery.lastAlert =
              some t := by
            rw [checkAlerts_snd_low]
            exact hf.2.2.2.2.2
          have := ih (checkAlerts cfg s u v t).2 t hlf' x hm
          linarith

/-- Low-battery fire times are separated by more than 3600 s, starting
from any state. -/
theorem runAlerts_low_pairwise (cfg : AlertConfig) :
    ∀ (calls : List (ℚ × ℚ × ℚ)) (s : AlertStates),
      (firesOf .low_battery (runAlerts cfg s calls)).Pairwise
        (fun a b => b - a > 3600) := by
  intro calls
  induction calls with
  | nil =>
      intro s
      simp [runAlerts, firesOf]
  | cons c rest ih =>
      obtain ⟨t, u, v⟩ := c
      intro s
      rw [runAlerts_cons, checkAlerts_fst, List.map_append,
        firesOf_append, firesOf_append, firesOf_low_high,
        List.nil_append]
      rcases checkBattery_fst_sub cfg s.lowBattery v t with h | h | h
      · rw [h]
        simpa [firesOf] using ih (checkAlerts cfg s u v t).2
      · rw [h]
        have hcrit : firesOf AlertType.low_battery
            [(t, AlertType.critical_battery)] = [] := by
          simp [firesOf]
        simp only [List.map_cons, List.map_nil, hcrit, List.nil_append]
        exact ih (checkAlerts cfg s u v t).2
      · rw [h]
        have hf := @checkBattery_low_fired cfg s.lowBattery v t
          (by rw [h]; simp)
        have hlf' : (checkAlerts cfg s u v t).2.lowBattery.lastAlert =
            some t := by
          rw [checkAlerts_snd_low]
          exact hf.2.2.2.2.2
        have hsingle : firesOf AlertType.low_battery
            [(t, AlertType.low_battery)] = [t] := by
          simp [firesOf]
        simp only [List.map_cons, List.map_nil, hsingle]
        rw [List.singleton_append]
        refine List.Pairwise.cons ?_ (ih (checkAlerts cfg s u v t).2)
        intro b hb
        exact runAlerts_low_gap cfg rest (checkAlerts cfg s u v t).2 t
          hlf' b hb

/-- A list whose consecutive elements are more than 3600 apart has at
most one element in any closed window of width 3600. -/
theorem length_filter_window_le_one {l : List ℚ}
    (hp : l.Pairwise (fun a b => b - a > 3600)) (w : ℚ) :
    (l.filter (fun x => decide (w ≤ x ∧ x ≤ w + 3600))).length ≤ 1 := by
  by_contra hlen
  push_neg at hlen
  match hl : l.filter (fun x => decide (w ≤ x ∧ x ≤ w + 3600)) with
  | [] => rw [hl] at hlen; simp at hlen
  | [a] => rw [hl] at hlen; simp at hlen
  | a :: b :: r =>
    have hpf : (l.filter
        (fun x => decide (w ≤ x ∧ x ≤ w + 3600))).Pairwise
        (fun a b => b - a > 3600) :=
      List.Pairwise.sublist (List.filter_sublist l) hp
    rw [hl] at hpf
    have hab : b - a > 3600 :=
      (List.pairwise_cons.mp hpf).1 b (List.mem_cons_self b r)
    have ha : a ∈ l.filter (fun x => decide (w ≤ x ∧ x ≤ w + 3600)) := by
      rw [hl]
      exact List.mem_cons_self a (b :: r)
    have hb : b ∈ l.filter (fun x => decide (w ≤ x ∧ x ≤ w + 3600)) := by
      rw [hl]
      exact List.mem_cons_of_mem a (List.mem_cons_self b r)
    have ha' := List.of_mem_filter ha
    have hb' := List.of_mem_filter hb
    simp only [decide_eq_true_eq] at ha' hb'
    linarith [ha'.1, ha'.2, hb'.1, hb'.2]

/-- C3: starting from a fresh evaluator, over any sequence of
`check_alerts` calls each debounced rule key (high_radiation,
low_battery) fires at most once within any closed 3600-second window of
call times, even across calls where its condition is false in between;
equivalently, consecutive fire times of the same key are always more
than 3600 s apart. -/
theorem C3_renotify_window (cfg : AlertConfig)
    (calls : List (ℚ × ℚ × ℚ)) (w : ℚ) :
    ((firesOf .high_radiation
        (runAlerts cfg initialAlertStates calls)).filter
        (fun x => decide (w ≤ x ∧ x ≤ w + 3600))).length ≤ 1 ∧
    ((firesOf .low_battery
        (runAlerts cfg initialAlertStates calls)).filter
        (fun x => decide (w ≤ x ∧ x ≤ w + 3600))).length ≤ 1 ∧
    (firesOf .high_radiation
        (runAlerts cfg initialAlertStates calls)).Pairwise
        (fun a b => b - a > 3600) ∧
    (firesOf .low_battery
        (runAlerts cfg initialAlertStates calls)).Pairwise
        (fun a b => b - a > 3600) :=
  ⟨length_filter_window_le_one (runAlerts_high_pairwise cfg calls _) w,
   length_filter_window_le_one (runAlerts_low_pairwise cfg calls _) w,
   runAlerts_high_pairwise cfg calls _,
   runAlerts_low_pairwise cfg calls _⟩

/-- The drift check performs no action, only the warning log, or the
warning log followed by the resync attempt. -/
theorem driftCheckRun_actions_sub (cfg : DeviceConfig) (inp : CycleInput) :
    (driftCheckRun cfg inp).1 = [] ∨
    (driftCheckRun cfg inp).1 = [LoopAction.logWarning] ∨
    (driftCheckRun cfg inp).1 =
      [LoopAction.logWarning, LoopAction.resyncTime] := by
  unfold driftCheckRun
  by_cases h1 : cfg.checkTimeDrift = true
  · rw [if_pos h1]
    rcases hdt : Except.bind inp.datetimeExchange get_datetime with e | dt
    · left
      rfl
    · dsimp only
      by_cases h2 : |inp.hostTime - (toTimestampSec dt : ℚ)| >
          cfg.maxTimeDriftSeconds
      · rw [if_pos h2]
        by_cases h3 : cfg.syncDatetimeOnStart = true
        · rw [if_pos h3]
          rcases hsd : Except.bind inp.setDtExchange set_datetime_result
            with e | u
          · right; right; rfl
          · right; right; rfl
        · rw [if_neg h3]
          right; left; rfl
      · rw [if_neg h2]
        left
        rfl
  · rw [if_neg h1]
    left
    rfl

/-- A resync attempt inside the drift check happens only when the drift
check is enabled, auto-sync is enabled, the device time was read and
decoded successfully, and the measured absolute drift strictly exceeds
the configured maximum. -/
theorem driftCheckRun_resync_mem {cfg : DeviceConfig} {inp : CycleInput}
    (h : LoopAction.resyncTime ∈ (driftCheckRun cfg inp).1) :
    cfg.checkTimeDrift = true ∧ cfg.syncDatetimeOnStart = true ∧
    ∃ dt, Except.bind inp.datetimeExchange get_datetime = .ok dt ∧
      |inp.hostTime - (toTimestampSec dt : ℚ)| >
        cfg.maxTimeDriftSeconds := by
  by_cases h1 : cfg.checkTimeDrift = true
  · unfold driftCheckRun at h
    rw [if_pos h1] at h
    rcases hdt : Except.bind inp.datetimeExchange get_datetime with e | dt
    · rw [hdt] at h
      simp at h
    · rw [hdt] at h
      dsimp only at h
      by_cases h2 : |inp.hostTime - (toTimestampSec dt : ℚ)| >
          cfg.maxTimeDriftSeconds
      · rw [if_pos h2] at h
        by_cases h3 : cfg.syncDatetimeOnStart = true
        · exact ⟨h1, h3, dt, rfl, h2⟩
        · rw [if_neg h3] at h
          simp at h
      · rw [if_neg h2] at h
        simp at h
  · unfold driftCheckRun at h
    rw [if_neg h1] at h
    simp at h

/-- C8: during a poll cycle a device-clock resync is attempted only
when the drift check is enabled, the measured absolute drift between
decoded device time and host time strictly exceeds the configured
maximum, and auto-resync (`sync_datetime_on_start`) is enabled;
moreover a failure inside the drift check itself is swallowed after
logging — with the two propagating reads successful the cycle still
logs the reading and publishes the state, and never reconnects. -/
theorem C8_drift_resync_conditions (cfg : DeviceConfig)
    (inp : CycleInput) :
    (LoopAction.resyncTime ∈ read_and_publish cfg inp →
        cfg.checkTimeDrift = true ∧ cfg.syncDatetimeOnStart = true ∧
        ∃ dt, Except.bind inp.datetimeExchange get_datetime = .ok dt ∧
          |inp.hostTime - (toTimestampSec dt : ℚ)| >
            cfg.maxTimeDriftSeconds) ∧
    (∀ n q, Except.bind inp.cpmExchange get_cpm = .ok n →
        Except.bind inp.voltExchange get_battery_voltage = .ok q →
        LoopAction.publishState ∈ read_and_publish cfg inp ∧
        LoopAction.connectDevice ∉ read_and_publish cfg inp) ∧
    (∀ n q e, Except.bind inp.cpmExchange get_cpm = .ok n →
        Except.bind inp.voltExchange get_battery_voltage = .ok q →
        Except.bind inp.datetimeExchange get_datetime = .error e →
        read_and_publish cfg inp =
          [LoopAction.logReading, LoopAction.publishState]) := by
  refine ⟨fun h => ?_, fun n q hn hq => ?_, fun n q e hn hq he => ?_⟩
  · unfold read_and_publish at h
    rcases hc : Except.bind inp.cpmExchange get_cpm with e | n
    · rw [hc] at h
      simp [reconnectActions] at h
    · rw [hc] at h
      rcases hv : Except.bind inp.voltExchange get_battery_voltage
        with e | q
      · rw [hv] at h
        simp [reconnectActions] at h
      · rw [hv] at h
        simp only [List.mem_append] at h
        rcases h with hm | hm
        · exact driftCheckRun_resync_mem hm
        · simp at hm
  · unfold read_and_publish
    rw [hn, hq]
    constructor
    · simp
    · intro hmem
      rcases List.mem_append.mp hmem with hm | hm
      · rcases driftCheckRun_actions_sub cfg inp with h | h | h <;>
          rw [h] at hm <;> simp at hm
      · simp at hm
  · unfold read_and_publish
    rw [hn, hq]
    have hdrift : (driftCheckRun cfg inp).1 = [] := by
      unfold driftCheckRun
      by_cases h1 : cfg.checkTimeDrift = true
      · rw [if_pos h1, he]
      · rw [if_neg h1]
    rw [hdrift, List.nil_append]

/-- Witness for C8: a concrete cycle whose drift check fails with a
transport error still completes normally. -/
theorem C8_drift_resync_conditions_witness :
    Except.bind (Except.ok [0, 100] : Except GmcError (List Nat))
      get_cpm = .ok 100 ∧
    Except.bind (Except.ok [70] : Except GmcError (List Nat))
      get_battery_voltage = .ok 7 ∧
    read_and_publish ⟨true, true, 300, 57/10000⟩
      ⟨.ok [0, 100], .ok [70], .error .transportError, .ok [0xAA], 0⟩ =
      [LoopAction.logReading, LoopAction.publishState] := by
  have hn : Except.bind (Except.ok [0, 100] : Except GmcError (List Nat))
      get_cpm = .ok 100 := rfl
  have hq : Except.bind (Except.ok [70] : Except GmcError (List Nat))
      get_battery_voltage = .ok 7 := by
    show get_battery_voltage [70] = .ok 7
    unfold get_battery_voltage
    norm_num
  exact ⟨hn, hq, (C8_drift_resync_conditions ⟨true, true, 300, 57/10000⟩
    ⟨.ok [0, 100], .ok [70], .error .transportError, .ok [0xAA], 0⟩).2.2
    100 7 .transportError hn hq rfl⟩

/-- C9: a failure of either propagating device read (transport error,
response-length error or NACK, all surfacing as an `Except.error`)
aborts the cycle with exactly the recovery sequence — publish
availability "offline", tear down the device session, wait 5 seconds,
re-establish the device session — publishes no state, and the polling
loop continues with the remaining cycles instead of terminating. -/
theorem C9_cycle_failure_recovery (cfg : DeviceConfig) (inp : CycleInput)
    (rest : List CycleInput)
    (hfail : (∃ e, Except.bind inp.cpmExchange get_cpm = .error e) ∨
        ∃ e, Except.bind inp.voltExchange get_battery_voltage =
          .error e) :
    read_and_publish cfg inp =
      [LoopAction.publishAvailability false, LoopAction.disconnectDevice,
       LoopAction.sleepSeconds 5, LoopAction.connectDevice] ∧
    LoopAction.publishState ∉ read_and_publish cfg inp ∧
    monitorLoop cfg (inp :: rest) =
      [LoopAction.publishAvailability false, LoopAction.disconnectDevice,
       LoopAction.sleepSeconds 5, LoopAction.connectDevice] ++
        monitorLoop cfg rest := by
  have hr : read_and_publish cfg inp = reconnectActions := by
    rcases hfail with ⟨e, he⟩ | ⟨e, he⟩
    · unfold read_and_publish
      rw [he]
    · unfold read_and_publish
      rcases hc : Except.bind inp.cpmExchange get_cpm with e' | n
      · rfl
      · rw [he]
  refine ⟨hr, ?_, ?_⟩
  · rw [hr]
    decide
  · show read_and_publish cfg inp ++ monitorLoop cfg rest = _
    rw [hr]
    rfl

/-- Witness for C9 at a concrete transport failure of the CPM read. -/
theorem C9_cycle_failure_recovery_witness :
    read_and_publish ⟨true, true, 300, 57/10000⟩
      ⟨.error .transportError, .ok [70], .ok [], .ok [], 0⟩ =
      [LoopAction.publishAvailability false, LoopAction.disconnectDevice,
       LoopAction.sleepSeconds 5, LoopAction.connectDevice] ∧
    monitorLoop ⟨true, true, 300, 57/10000⟩
      [⟨.error .transportError, .ok [70], .ok [], .ok [], 0⟩] =
      [LoopAction.publishAvailability false, LoopAction.disconnectDevice,
       LoopAction.sleepSeconds 5, LoopAction.connectDevice] := by
  have h := C9_cycle_failure_recovery ⟨true, true, 300, 57/10000⟩
    ⟨.error .transportError, .ok [70], .ok [], .ok [], 0⟩ []
    (Or.inl ⟨.transportError, rfl⟩)
  refine ⟨h.1, ?_⟩
  rw [h.2.2]
  simp [monitorLoop]
